import Mathlib

/-
Verification development for the logfire-content dashboard CLI core:
the API client (src/logfire_cli/clients/logfire_api.py) and the document
model (src/logfire_cli/models/logfire_api.py), embedded shallowly.

JSON values are modelled by an inductive type; numbers are integers (the
models only use `int` and string fields, no floats appear on any path
relevant here). Pydantic UUID and datetime parsing is modelled by
recognizers for the canonical textual forms; the stored value is the
accepted source string.
-/

inductive Json where
  | null
  | bool (b : Bool)
  | num (n : Int)
  | str (s : String)
  | arr (elts : List Json)
  | obj (fields : List (String × Json))

/-- First-match lookup of a key in a JSON object's field list. -/
def lookupKey : List (String × Json) → String → Option Json
  | [], _ => none
  | (k, v) :: rest, key => if k == key then some v else lookupKey rest key

def asStr : Json → Option String
  | .str s => some s
  | _ => none

def asInt : Json → Option Int
  | .num n => some n
  | _ => none

def asObj : Json → Option (List (String × Json))
  | .obj fields => some fields
  | _ => none

def asArr : Json → Option (List Json)
  | .arr elts => some elts
  | _ => none

def isHexDigit (c : Char) : Bool :=
  c.isDigit || ('a' ≤ c && c ≤ 'f') || ('A' ≤ c && c ≤ 'F')

/-- Recognizer for the canonical hyphenated UUID form accepted by pydantic's
`UUID` fields (8-4-4-4-12 hex digits). -/
def is_uuid (s : String) : Bool :=
  let cs := s.toList
  cs.length == 36 && (List.range 36).all (fun i =>
    let c := cs.getD i ' '
    if i == 8 || i == 13 || i == 18 || i == 23 then c == '-' else isHexDigit c)

def digitsAt (cs : List Char) (ps : List Nat) : Bool :=
  ps.all (fun i => (cs.getD i ' ').isDigit)

def fracZ : List Char → Bool
  | ['Z'] => true
  | c :: rest => c.isDigit && fracZ rest
  | [] => false

def datetimeSuffix : List Char → Bool
  | ['Z'] => true
  | '.' :: rest => fracZ rest
  | _ => false

/-- Recognizer for the ISO-8601 UTC timestamp form used by the API
(YYYY-MM-DDTHH:MM:SS with optional fractional seconds, Z suffix), the
shape pydantic `datetime` fields receive on every path modelled here. -/
def is_datetime (s : String) : Bool :=
  let cs := s.toList
  19 ≤ cs.length &&
  digitsAt cs [0, 1, 2, 3, 5, 6, 8, 9, 11, 12, 14, 15, 17, 18] &&
  (cs.getD 4 ' ' == '-') && (cs.getD 7 ' ' == '-') && (cs.getD 10 ' ' == 'T') &&
  (cs.getD 13 ' ' == ':') && (cs.getD 16 ' ' == ':') &&
  datetimeSuffix (cs.drop 19)

def asUuid (j : Json) : Option String := do
  let s ← asStr j
  if is_uuid s then some s else none

def asDatetime (j : Json) : Option String := do
  let s ← asStr j
  if is_datetime s then some s else none

/- ---------------------------------------------------------------------
Document model (models/logfire_api.py). Field order and optionality follow
the source; `model_config` facts (populate_by_name, extra) are reflected in
the validators below.
--------------------------------------------------------------------- -/

structure DashboardMetadata where
  name : String
  project : Option String := none
  version : Option Int := none
  created_at : Option String := none
  updated_at : Option String := none
deriving DecidableEq

structure DashboardDisplay where
  name : String
  description : Option String := none
deriving DecidableEq

structure DashboardSpec where
  display : DashboardDisplay
  datasources : List (String × Json) := []
  panels : List (String × Json) := []
  layouts : List Json := []
  vars : List Json := []  -- the source field named `variables`, a reserved word in Lean
  duration : String := "1h"
  refresh_interval : String := "0s"

structure Dashboard where
  kind : String := "Dashboard"
  metadata : DashboardMetadata
  spec : DashboardSpec

structure ListDashboardItem where
  id : String
  project_id : String
  created_at : String
  updated_at : Option String := none
  created_by_name : String
  updated_by_name : Option String
  dashboard_name : String
  dashboard_slug : String
deriving DecidableEq

structure GetDashboardResponse where
  dashboard : Dashboard

structure DashboardResponse where
  id : String
  project_id : String
  created_at : String
  updated_at : Option String := none
  created_by_name : String
  updated_by_name : Option String := none
  dashboard_name : String
  dashboard_slug : String
  definition : Dashboard

/- Field lookup helpers mirroring pydantic validation: a required field must
be present and non-null; a nullable field maps JSON null to None; an optional
field defaults when absent; populate_by_name tries the alias first, then the
field name. -/

def reqField (fields : List (String × Json)) (key : String)
    (conv : Json → Option α) : Option α := do
  let v ← lookupKey fields key
  conv v

def reqNullableField (fields : List (String × Json)) (key : String)
    (conv : Json → Option α) : Option (Option α) := do
  let v ← lookupKey fields key
  match v with
  | .null => some none
  | _ => (conv v).map some

def optNullableField (fields : List (String × Json)) (key : String)
    (conv : Json → Option α) : Option (Option α) :=
  match lookupKey fields key with
  | none => some none
  | some .null => some none
  | some v => (conv v).map some

def lookupAliased (fields : List (String × Json)) (al nm : String) : Option Json :=
  match lookupKey fields al with
  | some v => some v
  | none => lookupKey fields nm

def optNullableAliased (fields : List (String × Json)) (al nm : String)
    (conv : Json → Option α) : Option (Option α) :=
  match lookupAliased fields al nm with
  | none => some none
  | some .null => some none
  | some v => (conv v).map some

def defField (fields : List (String × Json)) (key : String)
    (conv : Json → Option α) (dflt : α) : Option α :=
  match lookupKey fields key with
  | none => some dflt
  | some v => conv v

def defAliasedField (fields : List (String × Json)) (al nm : String)
    (conv : Json → Option α) (dflt : α) : Option α :=
  match lookupAliased fields al nm with
  | none => some dflt
  | some v => conv v

/-- model_validate for DashboardMetadata (populate_by_name, extra ignored). -/
def validate_dashboard_metadata (j : Json) : Option DashboardMetadata := do
  let fields ← asObj j
  let name ← reqField fields "name" asStr
  let project ← optNullableField fields "project" asStr
  let version ← optNullableField fields "version" asInt
  let created_at ← optNullableAliased fields "createdAt" "created_at" asStr
  let updated_at ← optNullableAliased fields "updatedAt" "updated_at" asStr
  some { name, project, version, created_at, updated_at }

/-- model_validate for DashboardDisplay. -/
def validate_dashboard_display (j : Json) : Option DashboardDisplay := do
  let fields ← asObj j
  let name ← reqField fields "name" asStr
  let description ← optNullableField fields "description" asStr
  some { name, description }

/-- model_validate for DashboardSpec (populate_by_name; datasources, panels,
layouts, variables are opaque payloads kept as raw JSON). -/
def validate_dashboard_spec (j : Json) : Option DashboardSpec := do
  let fields ← asObj j
  let display ← reqField fields "display" validate_dashboard_display
  let datasources ← defField fields "datasources" asObj []
  let panels ← defField fields "panels" asObj []
  let layouts ← defField fields "layouts" asArr []
  let vars ← defField fields "variables" asArr []
  let duration ← defField fields "duration" asStr "1h"
  let refresh_interval ← defAliasedField fields "refreshInterval" "refresh_interval" asStr "0s"
  some { display, datasources, panels, layouts, vars, duration, refresh_interval }

/-- model_validate for Dashboard. -/
def validate_dashboard (j : Json) : Option Dashboard := do
  let fields ← asObj j
  let kind ← defField fields "kind" asStr "Dashboard"
  let metadata ← reqField fields "metadata" validate_dashboard_metadata
  let spec ← reqField fields "spec" validate_dashboard_spec
  some { kind, metadata, spec }

def listItemKeys : List String :=
  ["id", "project_id", "created_at", "updated_at", "created_by_name",
   "updated_by_name", "dashboard_name", "dashboard_slug"]

/-- model_validate for ListDashboardItem (extra forbidden: every key of the
input object must be a declared field name; updated_by_name is required but
nullable, updated_at is optional). -/
def validate_list_dashboard_item (j : Json) : Option ListDashboardItem := do
  let fields ← asObj j
  if fields.all (fun kv => listItemKeys.contains kv.1) then
    let id ← reqField fields "id" asUuid
    let project_id ← reqField fields "project_id" asUuid
    let created_at ← reqField fields "created_at" asDatetime
    let updated_at ← optNullableField fields "updated_at" asDatetime
    let created_by_name ← reqField fields "created_by_name" asStr
    let updated_by_name ← reqNullableField fields "updated_by_name" asStr
    let dashboard_name ← reqField fields "dashboard_name" asStr
    let dashboard_slug ← reqField fields "dashboard_slug" asStr
    some { id, project_id, created_at, updated_at, created_by_name,
           updated_by_name, dashboard_name, dashboard_slug }
  else
    none

def decode_items : List Json → Option (List ListDashboardItem)
  | [] => some []
  | x :: xs =>
    match validate_list_dashboard_item x, decode_items xs with
    | some i, some is => some (i :: is)
    | _, _ => none

/-- model_validate for ListDashboards, a RootModel over
`list[ListDashboardItem]`: the input itself must be a JSON array. -/
def validate_list_dashboards (j : Json) : Option (List ListDashboardItem) :=
  match j with
  | .arr xs => decode_items xs
  | _ => none

/-- model_validate for GetDashboardResponse (extra forbidden; single
`dashboard` field). -/
def validate_get_dashboard_response (j : Json) : Option GetDashboardResponse := do
  let fields ← asObj j
  if fields.all (fun kv => kv.1 == "dashboard") then
    let dashboard ← reqField fields "dashboard" validate_dashboard
    some { dashboard }
  else
    none

def dashboardResponseKeys : List String :=
  ["id", "project_id", "created_at", "updated_at", "created_by_name",
   "updated_by_name", "dashboard_name", "dashboard_slug", "definition"]

/-- model_validate for DashboardResponse (extra forbidden; updated_at and
updated_by_name default to None). -/
def validate_dashboard_response (j : Json) : Option DashboardResponse := do
  let fields ← asObj j
  if fields.all (fun kv => dashboardResponseKeys.contains kv.1) then
    let id ← reqField fields "id" asUuid
    let project_id ← reqField fields "project_id" asUuid
    let created_at ← reqField fields "created_at" asDatetime
    let updated_at ← optNullableField fields "updated_at" asDatetime
    let created_by_name ← reqField fields "created_by_name" asStr
    let updated_by_name ← optNullableField fields "updated_by_name" asStr
    let dashboard_name ← reqField fields "dashboard_name" asStr
    let dashboard_slug ← reqField fields "dashboard_slug" asStr
    let definition ← reqField fields "definition" validate_dashboard
    some { id, project_id, created_at, updated_at, created_by_name,
           updated_by_name, dashboard_name, dashboard_slug, definition }
  else
    none

/- Serialization: model_dump(mode=json, by_alias=True, exclude_none=True).
Fields appear in declaration order under their alias; a field whose value is
None is omitted (exclude_none acts on model fields per its documented
semantics; opaque payloads pass through unchanged). -/

def optEntry (key : String) : Option Json → List (String × Json)
  | some v => [(key, v)]
  | none => []

def dump_dashboard_metadata (m : DashboardMetadata) : Json :=
  .obj ([("name", .str m.name)]
    ++ optEntry "project" (m.project.map .str)
    ++ optEntry "version" (m.version.map .num)
    ++ optEntry "createdAt" (m.created_at.map .str)
    ++ optEntry "updatedAt" (m.updated_at.map .str))

def dump_dashboard_display (d : DashboardDisplay) : Json :=
  .obj ([("name", .str d.name)] ++ optEntry "description" (d.description.map .str))

def dump_dashboard_spec (s : DashboardSpec) : Json :=
  .obj [("display", dump_dashboard_display s.display),
        ("datasources", .obj s.datasources),
        ("panels", .obj s.panels),
        ("layouts", .arr s.layouts),
        ("variables", .arr s.vars),
        ("duration", .str s.duration),
        ("refreshInterval", .str s.refresh_interval)]

def dump_dashboard (d : Dashboard) : Json :=
  .obj [("kind", .str d.kind),
        ("metadata", dump_dashboard_metadata d.metadata),
        ("spec", dump_dashboard_spec d.spec)]

/-- Serialization of a Dashboard under the semantic (by-name) casing instead
of the wire aliases; used only to state that validation accepts the semantic
field names as inputs. -/
def dump_dashboard_metadata_semantic (m : DashboardMetadata) : Json :=
  .obj ([("name", .str m.name)]
    ++ optEntry "project" (m.project.map .str)
    ++ optEntry "version" (m.version.map .num)
    ++ optEntry "created_at" (m.created_at.map .str)
    ++ optEntry "updated_at" (m.updated_at.map .str))

def dump_dashboard_spec_semantic (s : DashboardSpec) : Json :=
  .obj [("display", dump_dashboard_display s.display),
        ("datasources", .obj s.datasources),
        ("panels", .obj s.panels),
        ("layouts", .arr s.layouts),
        ("variables", .arr s.vars),
        ("duration", .str s.duration),
        ("refresh_interval", .str s.refresh_interval)]

def dump_dashboard_semantic (d : Dashboard) : Json :=
  .obj [("kind", .str d.kind),
        ("metadata", dump_dashboard_metadata_semantic d.metadata),
        ("spec", dump_dashboard_spec_semantic d.spec)]

/- ---------------------------------------------------------------------
Client (clients/logfire_api.py). Exceptions become an error type; the three
Logfire exception classes are the kinds whose common superclass is
LogfireClientError, while pydantic ValidationError and RuntimeError fall
outside that hierarchy. The aiohttp session is modelled by its closed flag;
HTTP traffic by a responder function, with the list of issued requests
returned alongside the result.
--------------------------------------------------------------------- -/

inductive LogfireError where
  | authentication (msg : String)
  | notFound (msg : String)
  | client (msg : String)
  | validation
  | runtime (msg : String)
deriving DecidableEq

/-- isinstance(e, LogfireClientError): true for the authentication, not-found
and generic kinds (subclasses and base), false for pydantic's ValidationError
and for RuntimeError. -/
def isLogfireClientError : LogfireError → Bool
  | .authentication _ => true
  | .notFound _ => true
  | .client _ => true
  | .validation => false
  | .runtime _ => false

def isLogfireAuthenticationError : LogfireError → Bool
  | .authentication _ => true
  | _ => false

def isLogfireNotFoundError : LogfireError → Bool
  | .notFound _ => true
  | _ => false

structure Session where
  closed : Bool
deriving DecidableEq

structure LogfireClient where
  token : String
  organization : String
  project : String
  base_url : String
  sessionOpt : Option Session
deriving DecidableEq

/-- LogfireClient.__init__: base_url is stripped of trailing slashes and no
session exists yet. -/
def LogfireClient.make (token organization project base_url : String) : LogfireClient :=
  { token, organization, project,
    base_url := (String.mk ((base_url.toList.reverse.dropWhile (· == '/')).reverse)),
    sessionOpt := none }

def session_not_initialized_msg : String :=
  "Session not initialized. Enter the async context manager first."

/-- The `session` property: RuntimeError when no session is stored. -/
def LogfireClient.session (c : LogfireClient) : Except LogfireError Session :=
  match c.sessionOpt with
  | none => .error (.runtime session_not_initialized_msg)
  | some s => .ok s

/-- str.join over '/' as used by _build_url. -/
def joinSlash : List String → String
  | [] => ""
  | [p] => p
  | p :: ps => p ++ "/" ++ joinSlash ps

/-- LogfireClient._build_url: join the parts that are neither absent nor
empty with slashes. -/
def LogfireClient.build_url (_c : LogfireClient) (parts : List (Option String)) : String :=
  joinSlash ((parts.filterMap id).filter (fun p => p ≠ ""))

/-- LogfireClient._build_ui_api_url. -/
def LogfireClient.build_ui_api_url (c : LogfireClient) (parts : List (Option String)) : String :=
  c.build_url (some ("/ui-api/organizations/" ++ c.organization ++ "/projects/" ++ c.project) :: parts)

inductive Method where
  | get
  | post
  | put
  | delete
deriving DecidableEq

structure Request where
  method : Method
  path : String
  body : Option Json

/-- An HTTP response: status code, parsed JSON body, and raw body text. -/
structure HttpResponse where
  status : Nat
  body : Json
  text : String

/-- aiohttp ClientResponse.ok: status below 400. -/
def HttpResponse.ok (r : HttpResponse) : Bool := r.status < 400

/-- LogfireClient._handle_response: classify by status, then validate the
JSON body against the operation's model; a failed validation is pydantic's
ValidationError. -/
def handleResponse (validate : Json → Option T) (response : HttpResponse) :
    Except LogfireError T :=
  if response.status == 401 then
    .error (.authentication "Invalid or expired authentication token")
  else if response.status == 403 then
    .error (.authentication "Access denied to this resource")
  else if response.status == 404 then
    .error (.notFound "Not found")
  else if ¬ response.ok then
    .error (.client ("API request failed with status " ++ toString response.status ++ ": " ++ response.text))
  else
    match validate response.body with
    | some v => .ok v
    | none => .error .validation

/-- LogfireClient.list_dashboards. -/
def LogfireClient.list_dashboards (c : LogfireClient) (respond : Request → HttpResponse) :
    Except LogfireError (List ListDashboardItem) × List Request :=
  let url := c.build_ui_api_url [some "dashboards"] ++ "/"
  match c.sessionOpt with
  | none => (.error (.runtime session_not_initialized_msg), [])
  | some _ =>
    let req : Request := { method := .get, path := url, body := none }
    (handleResponse validate_list_dashboards (respond req), [req])

/-- LogfireClient.get_dashboard: decode the get envelope, return its
dashboard. -/
def LogfireClient.get_dashboard (c : LogfireClient) (slug : String)
    (respond : Request → HttpResponse) :
    Except LogfireError Dashboard × List Request :=
  let url := c.build_ui_api_url [some "dashboards", some slug] ++ "/"
  match c.sessionOpt with
  | none => (.error (.runtime session_not_initialized_msg), [])
  | some _ =>
    let req : Request := { method := .get, path := url, body := none }
    ((handleResponse validate_get_dashboard_response (respond req)).map (fun r => r.dashboard), [req])

/-- LogfireClient.create_dashboard: POST the definition/slug/name body to the
collection path, decode the create/update envelope. -/
def LogfireClient.create_dashboard (c : LogfireClient) (slug : String) (dashboard : Dashboard)
    (respond : Request → HttpResponse) :
    Except LogfireError Dashboard × List Request :=
  let url := c.build_ui_api_url [some "dashboards"] ++ "/"
  let data : Json := .obj [("definition", dump_dashboard dashboard),
                           ("slug", .str slug),
                           ("name", .str dashboard.metadata.name)]
  match c.sessionOpt with
  | none => (.error (.runtime session_not_initialized_msg), [])
  | some _ =>
    let req : Request := { method := .post, path := url, body := some data }
    ((handleResponse validate_dashboard_response (respond req)).map (fun r => r.definition), [req])

/-- LogfireClient.update_dashboard: PUT the definition/slug/name body to the
slug path, decode the create/update envelope. -/
def LogfireClient.update_dashboard (c : LogfireClient) (slug : String) (dashboard : Dashboard)
    (respond : Request → HttpResponse) :
    Except LogfireError Dashboard × List Request :=
  let url := c.build_ui_api_url [some "dashboards", some slug] ++ "/"
  let data : Json := .obj [("definition", dump_dashboard dashboard),
                           ("slug", .str slug),
                           ("name", .str dashboard.metadata.name)]
  match c.sessionOpt with
  | none => (.error (.runtime session_not_initialized_msg), [])
  | some _ =>
    let req : Request := { method := .put, path := url, body := some data }
    ((handleResponse validate_dashboard_response (respond req)).map (fun r => r.definition), [req])

/-- LogfireClient.delete_dashboard: raw status check, not _handle_response —
any status other than 204 is the generic LogfireClientError. -/
def LogfireClient.delete_dashboard (c : LogfireClient) (slug : String)
    (respond : Request → HttpResponse) :
    Except LogfireError Unit × List Request :=
  let url := c.build_ui_api_url [some "dashboards", some slug] ++ "/"
  match c.sessionOpt with
  | none => (.error (.runtime session_not_initialized_msg), [])
  | some _ =>
    let req : Request := { method := .delete, path := url, body := none }
    let response := respond req
    (if response.status ≠ 204 then
       .error (.client ("Failed to delete resource: " ++ toString response.status))
     else
       .ok (), [req])

/-- LogfireClient.__aenter__: open a fresh session. -/
def LogfireClient.aenter (c : LogfireClient) : LogfireClient :=
  { c with sessionOpt := some { closed := false } }

/-- LogfireClient.__aexit__: only when a session is stored and not closed is
it closed and the stored reference cleared; otherwise nothing happens. -/
def LogfireClient.aexit (c : LogfireClient) : LogfireClient :=
  match c.sessionOpt with
  | some s => if ¬ s.closed then { c with sessionOpt := none } else c
  | none => c

/- ---------------------------------------------------------------------
Concrete fixtures used by witnesses and counterexamples.
--------------------------------------------------------------------- -/

def openClient : LogfireClient :=
  { token := "test-token", organization := "test-org", project := "test-project",
    base_url := "https://logfire-us.pydantic.dev", sessionOpt := some { closed := false } }

def constantResponder (status : Nat) (body : Json) : Request → HttpResponse :=
  fun _ => { status := status, body := body, text := "body-text" }

def sampleDashboard : Dashboard :=
  { metadata := { name := "test-dashboard", project := some "test-project" },
    spec := { display := { name := "Test Dashboard" } } }

def sampleItemJson : Json := Json.obj
  [("id", Json.str "00000000-0000-0000-0000-000000000000"),
   ("project_id", Json.str "00000000-0000-0000-0000-000000000001"),
   ("created_at", Json.str "2024-01-01T00:00:00Z"),
   ("updated_at", Json.str "2024-01-02T00:00:00Z"),
   ("created_by_name", Json.str "test-user"),
   ("updated_by_name", Json.str "test-user"),
   ("dashboard_name", Json.str "Dashboard 1"),
   ("dashboard_slug", Json.str "dashboard-1")]

def sampleItem : ListDashboardItem :=
  { id := "00000000-0000-0000-0000-000000000000",
    project_id := "00000000-0000-0000-0000-000000000001",
    created_at := "2024-01-01T00:00:00Z",
    updated_at := some "2024-01-02T00:00:00Z",
    created_by_name := "test-user",
    updated_by_name := some "test-user",
    dashboard_name := "Dashboard 1",
    dashboard_slug := "dashboard-1" }

/- ---------------------------------------------------------------------
Helper lemmas.
--------------------------------------------------------------------- -/

theorem handleResponse_auth {T : Type} (validate : Json → Option T) (resp : HttpResponse)
    (h : resp.status = 401 ∨ resp.status = 403) :
    ∃ m, handleResponse validate resp = .error (.authentication m) := by
  rcases h with h | h
  · exact ⟨"Invalid or expired authentication token", by simp [handleResponse, h]⟩
  · exact ⟨"Access denied to this resource", by simp [handleResponse, h]⟩

theorem handleResponse_validation {T : Type} (validate : Json → Option T) (resp : HttpResponse)
    (hst : resp.status = 200) (hv : validate resp.body = none) :
    handleResponse validate resp = .error .validation := by
  simp [handleResponse, hst, HttpResponse.ok, hv]

/- ---------------------------------------------------------------------
C1. 401/403 classification across operations.
--------------------------------------------------------------------- -/

/-- C1 counterexample: delete_dashboard on a 401 response raises the generic
LogfireClientError (from the raw status check in _delete), not the
authentication-failure kind, refuting the claim for the delete operation. -/
theorem C1_counterexample :
    (openClient.delete_dashboard "my-dashboard" (constantResponder 401 Json.null)).1 =
      .error (.client "Failed to delete resource: 401") ∧
    isLogfireAuthenticationError (.client "Failed to delete resource: 401") = false :=
  ⟨rfl, rfl⟩

/-- C1 (amended): for the four operations that go through _handle_response
(list, get, create, update), a 401 or 403 response raises the
authentication-failure kind regardless of body content; delete instead
raises the generic LogfireClientError for those statuses. -/
theorem C1_authentication_classification
    (c : LogfireClient) (s : Session) (respond : Request → HttpResponse)
    (slug : String) (d : Dashboard)
    (hs : c.sessionOpt = some s)
    (hst : ∀ r, (respond r).status = 401 ∨ (respond r).status = 403) :
    (∃ m, (c.list_dashboards respond).1 = .error (.authentication m)) ∧
    (∃ m, (c.get_dashboard slug respond).1 = .error (.authentication m)) ∧
    (∃ m, (c.create_dashboard slug d respond).1 = .error (.authentication m)) ∧
    (∃ m, (c.update_dashboard slug d respond).1 = .error (.authentication m)) ∧
    (∃ m, (c.delete_dashboard slug respond).1 = .error (.client m)) := by
  refine ⟨?_, ?_, ?_, ?_, ?_⟩
  · simp only [LogfireClient.list_dashboards, hs]
    exact handleResponse_auth _ _ (hst _)
  · simp only [LogfireClient.get_dashboard, hs]
    obtain ⟨m, hm⟩ := handleResponse_auth validate_get_dashboard_response
      (respond { method := Method.get,
                 path := c.build_ui_api_url [some "dashboards", some slug] ++ "/",
                 body := none }) (hst _)
    exact ⟨m, by rw [hm]; rfl⟩
  · simp only [LogfireClient.create_dashboard, hs]
    obtain ⟨m, hm⟩ := handleResponse_auth validate_dashboard_response
      (respond { method := Method.post,
                 path := c.build_ui_api_url [some "dashboards"] ++ "/",
                 body := some (Json.obj [("definition", dump_dashboard d),
                                         ("slug", Json.str slug),
                                         ("name", Json.str d.metadata.name)]) }) (hst _)
    exact ⟨m, by rw [hm]; rfl⟩
  · simp only [LogfireClient.update_dashboard, hs]
    obtain ⟨m, hm⟩ := handleResponse_auth validate_dashboard_response
      (respond { method := Method.put,
                 path := c.build_ui_api_url [some "dashboards", some slug] ++ "/",
                 body := some (Json.obj [("definition", dump_dashboard d),
                                         ("slug", Json.str slug),
                                         ("name", Json.str d.metadata.name)]) }) (hst _)
    exact ⟨m, by rw [hm]; rfl⟩
  · simp only [LogfireClient.delete_dashboard, hs]
    refine ⟨"Failed to delete resource: " ++
      toString (respond { method := Method.delete,
                          path := c.build_ui_api_url [some "dashboards", some slug] ++ "/",
                          body := none }).status, ?_⟩
    rcases hst { method := Method.delete,
                 path := c.build_ui_api_url [some "dashboards", some slug] ++ "/",
                 body := none } with h | h <;> simp [h]

/-- C1 witness: the amended classification at a concrete client, responder
and dashboard. -/
theorem C1_witness :
    openClient.sessionOpt = some { closed := false } ∧
    ((∃ m, (openClient.list_dashboards (constantResponder 401 Json.null)).1 = .error (.authentication m)) ∧
     (∃ m, (openClient.get_dashboard "my-dashboard" (constantResponder 401 Json.null)).1 = .error (.authentication m)) ∧
     (∃ m, (openClient.create_dashboard "my-dashboard" sampleDashboard (constantResponder 401 Json.null)).1 = .error (.authentication m)) ∧
     (∃ m, (openClient.update_dashboard "my-dashboard" sampleDashboard (constantResponder 401 Json.null)).1 = .error (.authentication m)) ∧
     (∃ m, (openClient.delete_dashboard "my-dashboard" (constantResponder 401 Json.null)).1 = .error (.client m))) :=
  ⟨rfl, C1_authentication_classification openClient { closed := false }
    (constantResponder 401 Json.null) "my-dashboard" sampleDashboard rfl
    (fun _ => Or.inl rfl)⟩

/- ---------------------------------------------------------------------
C2. 404 classification for get and delete.
--------------------------------------------------------------------- -/

/-- C2: at the failing input (server answers 404), get_dashboard raises the
not-found kind as claimed, but delete_dashboard raises the generic
LogfireClientError — contradicting both the claim and delete_dashboard's own
docstring, which promises LogfireNotFoundError when the dashboard does not
exist. -/
theorem C2_code_behavior :
    (openClient.get_dashboard "nonexistent" (constantResponder 404 Json.null)).1 =
      .error (.notFound "Not found") ∧
    (openClient.delete_dashboard "nonexistent" (constantResponder 404 Json.null)).1 =
      .error (.client "Failed to delete resource: 404") ∧
    isLogfireNotFoundError (.client "Failed to delete resource: 404") = false :=
  ⟨rfl, rfl, rfl⟩

/- ---------------------------------------------------------------------
C3. Decode failure on 2xx responses.
--------------------------------------------------------------------- -/

/-- C3 counterexample: a 200 response whose body does not match the expected
shape makes get_dashboard fail with pydantic's ValidationError, which is not
a LogfireClientError — `model_validate` is called with no surrounding
try/except, so the generic client failure kind is not what is raised. -/
theorem C3_counterexample :
    (openClient.get_dashboard "my-dashboard"
        (constantResponder 200 (Json.obj [("unexpected", Json.str "x")]))).1 =
      .error .validation ∧
    isLogfireClientError .validation = false :=
  ⟨rfl, rfl⟩

/-- C3 (amended): on a 2xx response whose JSON body does not match the
expected shape, each decoding operation (list, get, create, update) raises
the validation library's error, which lies outside the LogfireClientError
hierarchy; the generic client failure kind is reserved for non-ok statuses
other than 401/403/404. -/
theorem C3_decode_failure
    (c : LogfireClient) (s : Session) (respond : Request → HttpResponse)
    (slug : String) (d : Dashboard)
    (hs : c.sessionOpt = some s)
    (hst : ∀ r, (respond r).status = 200)
    (hvl : ∀ r, validate_list_dashboards (respond r).body = none)
    (hvg : ∀ r, validate_get_dashboard_response (respond r).body = none)
    (hvd : ∀ r, validate_dashboard_response (respond r).body = none) :
    (c.list_dashboards respond).1 = .error .validation ∧
    (c.get_dashboard slug respond).1 = .error .validation ∧
    (c.create_dashboard slug d respond).1 = .error .validation ∧
    (c.update_dashboard slug d respond).1 = .error .validation ∧
    isLogfireClientError .validation = false := by
  refine ⟨?_, ?_, ?_, ?_, rfl⟩
  · simp only [LogfireClient.list_dashboards, hs]
    exact handleResponse_validation _ _ (hst _) (hvl _)
  · simp only [LogfireClient.get_dashboard, hs]
    simp [handleResponse_validation _ _ (hst _) (hvg _), Except.map]
  · simp only [LogfireClient.create_dashboard, hs]
    simp [handleResponse_validation _ _ (hst _) (hvd _), Except.map]
  · simp only [LogfireClient.update_dashboard, hs]
    simp [handleResponse_validation _ _ (hst _) (hvd _), Except.map]

/-- C3 witness: the amended statement at a concrete client and a responder
returning 200 with a JSON null body, which matches none of the expected
shapes. -/
theorem C3_witness :
    openClient.sessionOpt = some { closed := false } ∧
    (openClient.list_dashboards (constantResponder 200 Json.null)).1 = .error .validation ∧
    (openClient.get_dashboard "my-dashboard" (constantResponder 200 Json.null)).1 = .error .validation ∧
    (openClient.create_dashboard "my-dashboard" sampleDashboard (constantResponder 200 Json.null)).1 = .error .validation ∧
    (openClient.update_dashboard "my-dashboard" sampleDashboard (constantResponder 200 Json.null)).1 = .error .validation :=
  ⟨rfl,
   (C3_decode_failure openClient { closed := false } (constantResponder 200 Json.null)
      "my-dashboard" sampleDashboard rfl (fun _ => rfl) (fun _ => rfl) (fun _ => rfl)
      (fun _ => rfl)).1,
   (C3_decode_failure openClient { closed := false } (constantResponder 200 Json.null)
      "my-dashboard" sampleDashboard rfl (fun _ => rfl) (fun _ => rfl) (fun _ => rfl)
      (fun _ => rfl)).2.1,
   (C3_decode_failure openClient { closed := false } (constantResponder 200 Json.null)
      "my-dashboard" sampleDashboard rfl (fun _ => rfl) (fun _ => rfl) (fun _ => rfl)
      (fun _ => rfl)).2.2.1,
   (C3_decode_failure openClient { closed := false } (constantResponder 200 Json.null)
      "my-dashboard" sampleDashboard rfl (fun _ => rfl) (fun _ => rfl) (fun _ => rfl)
      (fun _ => rfl)).2.2.2.1⟩

/- ---------------------------------------------------------------------
C4. Request body for create/update.
--------------------------------------------------------------------- -/

theorem dump_metadata_lookup (m : DashboardMetadata) :
    ∃ mf, asObj (dump_dashboard_metadata m) = some mf ∧
      lookupKey mf "name" = some (Json.str m.name) ∧
      lookupKey mf "project" = m.project.map Json.str ∧
      lookupKey mf "version" = m.version.map Json.num ∧
      lookupKey mf "createdAt" = m.created_at.map Json.str ∧
      lookupKey mf "updatedAt" = m.updated_at.map Json.str ∧
      lookupKey mf "created_at" = none ∧
      lookupKey mf "updated_at" = none := by
  obtain ⟨nm, pr, vs, ca, ua⟩ := m
  cases pr <;> cases vs <;> cases ca <;> cases ua <;>
    exact ⟨_, rfl, rfl, rfl, rfl, rfl, rfl, rfl, rfl⟩

theorem dump_spec_lookup (s : DashboardSpec) :
    ∃ sf, asObj (dump_dashboard_spec s) = some sf ∧
      lookupKey sf "refreshInterval" = some (Json.str s.refresh_interval) ∧
      lookupKey sf "refresh_interval" = none := by
  obtain ⟨di, ds, pn, ly, vr, du, ri⟩ := s
  exact ⟨_, rfl, rfl, rfl⟩

/-- C4: with an open session, create_dashboard and update_dashboard each
issue exactly one request whose body is the object with the three keys
definition, slug and name, where definition is the dashboard serialized by
model_dump(by_alias, exclude_none), slug is the given slug and name is
metadata.name; the serialized definition uses the wire-cased aliases
(createdAt, updatedAt, refreshInterval), never the semantic names, and every
absent optional field is omitted (its key maps through Option.map, so a None
field has no entry). -/
theorem C4_request_body
    (c : LogfireClient) (s : Session) (respond : Request → HttpResponse)
    (slug : String) (d : Dashboard)
    (hs : c.sessionOpt = some s) :
    (c.create_dashboard slug d respond).2 =
      [{ method := Method.post,
         path := c.build_ui_api_url [some "dashboards"] ++ "/",
         body := some (Json.obj [("definition", dump_dashboard d),
                                 ("slug", Json.str slug),
                                 ("name", Json.str d.metadata.name)]) }] ∧
    (c.update_dashboard slug d respond).2 =
      [{ method := Method.put,
         path := c.build_ui_api_url [some "dashboards", some slug] ++ "/",
         body := some (Json.obj [("definition", dump_dashboard d),
                                 ("slug", Json.str slug),
                                 ("name", Json.str d.metadata.name)]) }] ∧
    (∃ mf, asObj (dump_dashboard_metadata d.metadata) = some mf ∧
       lookupKey mf "name" = some (Json.str d.metadata.name) ∧
       lookupKey mf "project" = d.metadata.project.map Json.str ∧
       lookupKey mf "version" = d.metadata.version.map Json.num ∧
       lookupKey mf "createdAt" = d.metadata.created_at.map Json.str ∧
       lookupKey mf "updatedAt" = d.metadata.updated_at.map Json.str ∧
       lookupKey mf "created_at" = none ∧
       lookupKey mf "updated_at" = none) ∧
    (∃ sf, asObj (dump_dashboard_spec d.spec) = some sf ∧
       lookupKey sf "refreshInterval" = some (Json.str d.spec.refresh_interval) ∧
       lookupKey sf "refresh_interval" = none) := by
  refine ⟨?_, ?_, dump_metadata_lookup d.metadata, dump_spec_lookup d.spec⟩
  · simp only [LogfireClient.create_dashboard, hs]
  · simp only [LogfireClient.update_dashboard, hs]

/-- C4 witness: the body shape at a concrete client, slug and dashboard. -/
theorem C4_witness :
    openClient.sessionOpt = some { closed := false } ∧
    (openClient.create_dashboard "test-dashboard" sampleDashboard
        (constantResponder 200 Json.null)).2 =
      [{ method := Method.post,
         path := openClient.build_ui_api_url [some "dashboards"] ++ "/",
         body := some (Json.obj [("definition", dump_dashboard sampleDashboard),
                                 ("slug", Json.str "test-dashboard"),
                                 ("name", Json.str sampleDashboard.metadata.name)]) }] :=
  ⟨rfl, (C4_request_body openClient { closed := false } (constantResponder 200 Json.null)
    "test-dashboard" sampleDashboard rfl).1⟩

/- ---------------------------------------------------------------------
C5. Resource path construction.
--------------------------------------------------------------------- -/

theorem ui_root_ne_empty (org proj : String) :
    "/ui-api/organizations/" ++ org ++ "/projects/" ++ proj ≠ "" := by
  intro h
  have h2 : ("/ui-api/organizations/" ++ org ++ "/projects/" ++ proj).length = 0 := by
    rw [h]
    rfl
  rw [String.length_append, String.length_append, String.length_append] at h2
  have h3 : ("/ui-api/organizations/" : String).length = 22 := rfl
  omega

theorem dashboards_path_fold (r s : String) :
    r ++ "/" ++ ("dashboards" ++ "/" ++ s) ++ "/" = r ++ "/dashboards/" ++ s ++ "/" := by
  simp only [String.append_assoc]
  congr 1

theorem collection_path_fold (r : String) :
    r ++ "/" ++ "dashboards" ++ "/" = r ++ "/dashboards/" := by
  simp only [String.append_assoc]
  congr 1

/-- build_ui_api_url with the dashboards segment and a non-empty slug yields
the slug resource path. -/
theorem slug_path_eq (c : LogfireClient) (slug : String) (h : slug ≠ "") :
    c.build_ui_api_url [some "dashboards", some slug] ++ "/" =
      "/ui-api/organizations/" ++ c.organization ++ "/projects/" ++ c.project ++
        "/dashboards/" ++ slug ++ "/" := by
  have hr := ui_root_ne_empty c.organization c.project
  unfold LogfireClient.build_ui_api_url LogfireClient.build_url
  simp only [List.filterMap_cons, id, List.filterMap_nil, List.filter_cons, List.filter_nil,
    hr, h, decide_not, ne_eq, not_false_eq_true, decide_True, if_true]
  simp only [joinSlash]
  exact dashboards_path_fold _ slug

/-- build_ui_api_url with only the dashboards segment yields the collection
path. -/
theorem collection_path_eq (c : LogfireClient) :
    c.build_ui_api_url [some "dashboards"] ++ "/" =
      "/ui-api/organizations/" ++ c.organization ++ "/projects/" ++ c.project ++
        "/dashboards/" := by
  have hr := ui_root_ne_empty c.organization c.project
  unfold LogfireClient.build_ui_api_url LogfireClient.build_url
  simp only [List.filterMap_cons, id, List.filterMap_nil, List.filter_cons, List.filter_nil,
    hr, decide_not, ne_eq, not_false_eq_true, decide_True, if_true]
  simp only [joinSlash]
  exact collection_path_fold _

/-- C5: with an open session and a non-empty slug, get/update/delete each
issue a single request whose path is
/ui-api/organizations/org/projects/project/dashboards/slug/ — the slug as
its own segment, trailing slash included — while list/create issue a single
request to /ui-api/organizations/org/projects/project/dashboards/ with no
slug segment; path parts are joined after filtering out absent and empty
parts. -/
theorem C5_resource_paths
    (c : LogfireClient) (s : Session) (respond : Request → HttpResponse)
    (slug : String) (d : Dashboard)
    (hs : c.sessionOpt = some s) (hslug : slug ≠ "") :
    (c.get_dashboard slug respond).2.map (fun r => r.path) =
      ["/ui-api/organizations/" ++ c.organization ++ "/projects/" ++ c.project ++
        "/dashboards/" ++ slug ++ "/"] ∧
    (c.update_dashboard slug d respond).2.map (fun r => r.path) =
      ["/ui-api/organizations/" ++ c.organization ++ "/projects/" ++ c.project ++
        "/dashboards/" ++ slug ++ "/"] ∧
    (c.delete_dashboard slug respond).2.map (fun r => r.path) =
      ["/ui-api/organizations/" ++ c.organization ++ "/projects/" ++ c.project ++
        "/dashboards/" ++ slug ++ "/"] ∧
    (c.list_dashboards respond).2.map (fun r => r.path) =
      ["/ui-api/organizations/" ++ c.organization ++ "/projects/" ++ c.project ++
        "/dashboards/"] ∧
    (c.create_dashboard slug d respond).2.map (fun r => r.path) =
      ["/ui-api/organizations/" ++ c.organization ++ "/projects/" ++ c.project ++
        "/dashboards/"] := by
  refine ⟨?_, ?_, ?_, ?_, ?_⟩
  · simp only [LogfireClient.get_dashboard, hs, List.map_cons, List.map_nil,
      slug_path_eq c slug hslug]
  · simp only [LogfireClient.update_dashboard, hs, List.map_cons, List.map_nil,
      slug_path_eq c slug hslug]
  · simp only [LogfireClient.delete_dashboard, hs, List.map_cons, List.map_nil,
      slug_path_eq c slug hslug]
  · simp only [LogfireClient.list_dashboards, hs, List.map_cons, List.map_nil,
      collection_path_eq c]
  · simp only [LogfireClient.create_dashboard, hs, List.map_cons, List.map_nil,
      collection_path_eq c]

/-- C5 witness: the path shapes at a concrete client and slug. -/
theorem C5_witness :
    openClient.sessionOpt = some { closed := false } ∧
    ("my-dashboard" : String) ≠ "" ∧
    (openClient.get_dashboard "my-dashboard" (constantResponder 200 Json.null)).2.map (fun r => r.path) =
      ["/ui-api/organizations/" ++ openClient.organization ++ "/projects/" ++
        openClient.project ++ "/dashboards/" ++ "my-dashboard" ++ "/"] ∧
    (openClient.list_dashboards (constantResponder 200 Json.null)).2.map (fun r => r.path) =
      ["/ui-api/organizations/" ++ openClient.organization ++ "/projects/" ++
        openClient.project ++ "/dashboards/"] :=
  have h := C5_resource_paths openClient { closed := false } (constantResponder 200 Json.null)
    "my-dashboard" sampleDashboard rfl (by decide)
  ⟨rfl, by decide, h.1, h.2.2.2.1⟩

/- ---------------------------------------------------------------------
C6. List response decoding: bare array versus wrapped object.
--------------------------------------------------------------------- -/

/-- C6 counterexample: list_dashboards decodes a bare JSON array, but the
same items wrapped in an object fail decoding entirely — the wrapped shape is
never tried, so the two response shapes do not decode to the same typed
result and there is no wrapped-first fallback. -/
theorem C6_counterexample :
    (openClient.list_dashboards
        (constantResponder 200 (Json.arr [sampleItemJson]))).1 = .ok [sampleItem] ∧
    (openClient.list_dashboards
        (constantResponder 200 (Json.obj [("dashboards", Json.arr [sampleItemJson])]))).1 =
      .error .validation :=
  ⟨rfl, rfl⟩

theorem decode_items_length (xs : List Json) (items : List ListDashboardItem)
    (h : decode_items xs = some items) : items.length = xs.length := by
  induction xs generalizing items with
  | nil =>
    simp [decode_items] at h
    simp [← h]
  | cons x xs ih =>
    simp only [decode_items] at h
    cases hx : validate_list_dashboard_item x with
    | none => rw [hx] at h; simp at h
    | some i =>
      rw [hx] at h
      cases hxs : decode_items xs with
      | none => rw [hxs] at h; simp at h
      | some is =>
        rw [hxs] at h
        simp only [Option.some.injEq] at h
        subst h
        simp [ih is hxs]

theorem decode_items_get (xs : List Json) :
    ∀ (items : List ListDashboardItem), decode_items xs = some items →
    ∀ (i : Nat) (h1 : i < xs.length) (h2 : i < items.length),
      validate_list_dashboard_item (xs.get ⟨i, h1⟩) = some (items.get ⟨i, h2⟩) := by
  induction xs with
  | nil => intro items h i h1 h2; simp at h1
  | cons x xs ih =>
    intro items h i h1 h2
    simp only [decode_items] at h
    cases hx : validate_list_dashboard_item x with
    | none => rw [hx] at h; simp at h
    | some it =>
      rw [hx] at h
      cases hxs : decode_items xs with
      | none => rw [hxs] at h; simp at h
      | some is =>
        rw [hxs] at h
        simp only [Option.some.injEq] at h
        subst h
        cases i with
        | zero => simpa using hx
        | succ n =>
          simp only [List.get_cons_succ]
          exact ih is hxs n (by simpa using h1) (by simpa using h2)

/-- C6 (amended): ListDashboards decoding accepts only the bare-array shape:
any JSON object (wrapped) input fails to decode, and a bare array decodes to
a sequence of items equal in count to the array, where each item is the
validation of the corresponding array element; there is no wrapped-then-bare
fallback. -/
theorem C6_list_decode_shapes :
    (∀ fields, validate_list_dashboards (Json.obj fields) = none) ∧
    (∀ xs items, validate_list_dashboards (Json.arr xs) = some items →
       items.length = xs.length ∧
       ∀ i (h1 : i < xs.length) (h2 : i < items.length),
         validate_list_dashboard_item (xs.get ⟨i, h1⟩) = some (items.get ⟨i, h2⟩)) := by
  refine ⟨fun fields => rfl, fun xs items h => ?_⟩
  have h' : decode_items xs = some items := h
  exact ⟨decode_items_length xs items h', fun i h1 h2 => decode_items_get xs items h' i h1 h2⟩

/-- C6 witness: the amended decoding facts at a concrete one-element array. -/
theorem C6_witness :
    validate_list_dashboards (Json.arr [sampleItemJson]) = some [sampleItem] ∧
    ([sampleItem] : List ListDashboardItem).length = ([sampleItemJson] : List Json).length ∧
    validate_list_dashboards (Json.obj [("dashboards", Json.arr [sampleItemJson])]) = none :=
  ⟨rfl,
   (C6_list_decode_shapes.2 [sampleItemJson] [sampleItem] rfl).1,
   C6_list_decode_shapes.1 [("dashboards", Json.arr [sampleItemJson])]⟩

/- ---------------------------------------------------------------------
C7. Dashboard serialization round trip and alias acceptance.
--------------------------------------------------------------------- -/

theorem roundtrip_display (d : DashboardDisplay) :
    validate_dashboard_display (dump_dashboard_display d) = some d := by
  obtain ⟨nm, de⟩ := d
  cases de <;> rfl

theorem roundtrip_metadata (m : DashboardMetadata) :
    validate_dashboard_metadata (dump_dashboard_metadata m) = some m := by
  obtain ⟨nm, pr, vs, ca, ua⟩ := m
  cases pr <;> cases vs <;> cases ca <;> cases ua <;> rfl

theorem roundtrip_metadata_semantic (m : DashboardMetadata) :
    validate_dashboard_metadata (dump_dashboard_metadata_semantic m) = some m := by
  obtain ⟨nm, pr, vs, ca, ua⟩ := m
  cases pr <;> cases vs <;> cases ca <;> cases ua <;> rfl

theorem roundtrip_spec (s : DashboardSpec) :
    validate_dashboard_spec (dump_dashboard_spec s) = some s := by
  obtain ⟨di, ds, pn, ly, vr, du, ri⟩ := s
  simp [validate_dashboard_spec, dump_dashboard_spec, reqField, defField, defAliasedField,
    lookupAliased, lookupKey, asObj, asArr, asStr, roundtrip_display]

theorem roundtrip_spec_semantic (s : DashboardSpec) :
    validate_dashboard_spec (dump_dashboard_spec_semantic s) = some s := by
  obtain ⟨di, ds, pn, ly, vr, du, ri⟩ := s
  simp [validate_dashboard_spec, dump_dashboard_spec_semantic, reqField, defField,
    defAliasedField, lookupAliased, lookupKey, asObj, asArr, asStr, roundtrip_display]

/-- C7: for every Dashboard document, validating its serialized form (wire
aliases, absent fields omitted) recovers the document exactly — every
explicitly-set field survives and absent optional fields stay absent — and
validating the semantically-cased form (created_at, refresh_interval) yields
the same document, so both casings are accepted on input. -/
theorem C7_roundtrip (d : Dashboard) :
    validate_dashboard (dump_dashboard d) = some d ∧
    validate_dashboard (dump_dashboard_semantic d) = some d := by
  obtain ⟨ki, me, sp⟩ := d
  constructor
  · simp [validate_dashboard, dump_dashboard, reqField, defField, lookupKey, asObj, asStr,
      roundtrip_metadata, roundtrip_spec]
  · simp [validate_dashboard, dump_dashboard_semantic, reqField, defField, lookupKey, asObj,
      asStr, roundtrip_metadata_semantic, roundtrip_spec_semantic]

/- ---------------------------------------------------------------------
C8. Usage fault outside the connection scope.
--------------------------------------------------------------------- -/

/-- C8: on a client with no stored session, every operation returns the
RuntimeError usage fault with the session-not-initialized message, issues no
HTTP request at all, and that fault is not a LogfireClientError. -/
theorem C8_usage_fault
    (c : LogfireClient) (respond : Request → HttpResponse)
    (slug : String) (d : Dashboard)
    (h : c.sessionOpt = none) :
    c.list_dashboards respond = (.error (.runtime session_not_initialized_msg), []) ∧
    c.get_dashboard slug respond = (.error (.runtime session_not_initialized_msg), []) ∧
    c.create_dashboard slug d respond = (.error (.runtime session_not_initialized_msg), []) ∧
    c.update_dashboard slug d respond = (.error (.runtime session_not_initialized_msg), []) ∧
    c.delete_dashboard slug respond = (.error (.runtime session_not_initialized_msg), []) ∧
    isLogfireClientError (.runtime session_not_initialized_msg) = false := by
  refine ⟨?_, ?_, ?_, ?_, ?_, rfl⟩ <;>
    simp only [LogfireClient.list_dashboards, LogfireClient.get_dashboard,
      LogfireClient.create_dashboard, LogfireClient.update_dashboard,
      LogfireClient.delete_dashboard, h]

/-- C8 witness: a freshly constructed client (no scope entered) at a concrete
operation. -/
theorem C8_witness :
    (LogfireClient.make "token" "org" "proj" "https://example.test").sessionOpt = none ∧
    (LogfireClient.make "token" "org" "proj" "https://example.test").list_dashboards
        (constantResponder 200 Json.null) =
      (.error (.runtime session_not_initialized_msg), []) :=
  ⟨rfl, (C8_usage_fault (LogfireClient.make "token" "org" "proj" "https://example.test")
    (constantResponder 200 Json.null) "my-dashboard" sampleDashboard rfl).1⟩

/- ---------------------------------------------------------------------
C9. Empty slug collapses to the collection path.
--------------------------------------------------------------------- -/

/-- C9: with an open session, calling get/update/delete with the empty slug
builds exactly the collection path (the empty part is filtered out of the
join), identical to the path list_dashboards uses; a request is still issued
and no error arises at URL-construction time. -/
theorem C9_empty_slug
    (c : LogfireClient) (s : Session) (respond : Request → HttpResponse) (d : Dashboard)
    (hs : c.sessionOpt = some s) :
    (c.get_dashboard "" respond).2.map (fun r => r.path) =
      ["/ui-api/organizations/" ++ c.organization ++ "/projects/" ++ c.project ++
        "/dashboards/"] ∧
    (c.update_dashboard "" d respond).2.map (fun r => r.path) =
      ["/ui-api/organizations/" ++ c.organization ++ "/projects/" ++ c.project ++
        "/dashboards/"] ∧
    (c.delete_dashboard "" respond).2.map (fun r => r.path) =
      ["/ui-api/organizations/" ++ c.organization ++ "/projects/" ++ c.project ++
        "/dashboards/"] ∧
    (c.get_dashboard "" respond).2.map (fun r => r.path) =
      (c.list_dashboards respond).2.map (fun r => r.path) := by
  have hempty : c.build_ui_api_url [some "dashboards", some ""] =
      c.build_ui_api_url [some "dashboards"] := by
    unfold LogfireClient.build_ui_api_url LogfireClient.build_url
    simp [List.filter_cons, List.filter_nil]
  refine ⟨?_, ?_, ?_, ?_⟩
  · simp only [LogfireClient.get_dashboard, hs, List.map_cons, List.map_nil, hempty,
      collection_path_eq c]
  · simp only [LogfireClient.update_dashboard, hs, List.map_cons, List.map_nil, hempty,
      collection_path_eq c]
  · simp only [LogfireClient.delete_dashboard, hs, List.map_cons, List.map_nil, hempty,
      collection_path_eq c]
  · simp only [LogfireClient.get_dashboard, LogfireClient.list_dashboards, hs,
      List.map_cons, List.map_nil, hempty]

/-- C9 witness: the empty-slug path at a concrete client equals the
collection path. -/
theorem C9_witness :
    openClient.sessionOpt = some { closed := false } ∧
    (openClient.get_dashboard "" (constantResponder 200 Json.null)).2.map (fun r => r.path) =
      ["/ui-api/organizations/" ++ openClient.organization ++ "/projects/" ++
        openClient.project ++ "/dashboards/"] :=
  ⟨rfl, (C9_empty_slug openClient { closed := false } (constantResponder 200 Json.null)
    sampleDashboard rfl).1⟩

/- ---------------------------------------------------------------------
C10. State after exiting the connection scope.
--------------------------------------------------------------------- -/

def staleClient : LogfireClient :=
  { token := "t", organization := "o", project := "p", base_url := "u",
    sessionOpt := some { closed := true } }

/-- C10 counterexample: exiting the scope on a client whose stored session is
already closed leaves the session stored (not None), and the session property
then succeeds instead of raising the usage fault — so exiting does not always
leave the client with no stored session. -/
theorem C10_counterexample :
    staleClient.aexit.sessionOpt = some { closed := true } ∧
    staleClient.aexit.session = .ok { closed := true } :=
  ⟨rfl, rfl⟩

/-- C10 (amended): exiting the scope clears the stored session whenever the
stored session is open, after which every operation raises the usage fault
and issues no request; exiting with no stored session is a no-op that raises
nothing; but exiting while the stored session is already closed is a no-op
that leaves the closed session stored. -/
theorem C10_aexit_behavior (c : LogfireClient) :
    (∀ s, c.sessionOpt = some s → s.closed = false →
       c.aexit.sessionOpt = none ∧
       (∀ respond, c.aexit.list_dashboards respond =
          (.error (.runtime session_not_initialized_msg), []))) ∧
    (c.sessionOpt = none → c.aexit = c) ∧
    (∀ s, c.sessionOpt = some s → s.closed = true → c.aexit = c) := by
  refine ⟨?_, ?_, ?_⟩
  · intro s hs hopen
    have hnone : c.aexit.sessionOpt = none := by
      simp [LogfireClient.aexit, hs, hopen]
    exact ⟨hnone, fun respond => by simp only [LogfireClient.list_dashboards, hnone]⟩
  · intro h
    simp [LogfireClient.aexit, h]
  · intro s hs hclosed
    simp [LogfireClient.aexit, hs, hclosed]

/-- C10 witness: the amended behavior at a concrete open client and at a
concrete session-less client. -/
theorem C10_witness :
    openClient.sessionOpt = some { closed := false } ∧
    openClient.aexit.sessionOpt = none ∧
    (LogfireClient.make "t" "o" "p" "u").sessionOpt = none ∧
    (LogfireClient.make "t" "o" "p" "u").aexit = LogfireClient.make "t" "o" "p" "u" :=
  ⟨rfl,
   ((C10_aexit_behavior openClient).1 { closed := false } rfl rfl).1,
   rfl,
   (C10_aexit_behavior (LogfireClient.make "t" "o" "p" "u")).2.1 rfl⟩
